import Mathlib

/-!
# Verification of the quiz state machine of `src/types.ts`

Shallow embedding of the core logic of the quiz application: the data
model (`Question`, `QuizConfig`, `QuizState`), the scoring engine
(`finishQuiz`), the answer-recording handlers (`handleMCSelect`,
`handleTFSelect`), navigation (`handleNextQuestion`,
`handlePrevQuestion`), the integrity watchdog (`handleVisibilityChange`)
and `resetApp`.

Modelling conventions:
* JavaScript numbers are modelled over `ℚ` (all arithmetic performed by
  the program — sums of quarter points, division, multiplication by 10 —
  is exact in binary doubles for the sizes involved); the single value
  `NaN`, which arises from `0/0` when there are no questions, is
  modelled by `Option ℚ` with `none` for `NaN`.
* A true/false answer array holds `true`, `false` or `undefined` cells;
  a cell is `Option Bool` with `none` for `undefined`.  JavaScript
  strict equality `===` restricted to `{true, false, undefined}` is
  exactly `BEq` on `Option Bool` (`undefined === undefined` is `true`).
* The union type `UserAnswer = number | boolean[] | null` together with
  the `undefined` produced by an out-of-bounds array read is modelled by
  the inductive `UserAnswer` below; the constructor `undef` is the
  JavaScript `undefined` read from a missing slot.  The `null` arm of
  the TypeScript union is never produced by any code path (answers are
  initialised to `-1` or a 4-cell array and overwritten only with
  numbers or arrays), so it has no constructor of its own.
* Timestamps (`startTime`, `endTime`) and the cosmetic elapsed-time
  state are omitted: no scoring or transition logic reads them.
-/

namespace HoctoanTHCS

/-- `enum Difficulty` of `src/types.ts`. -/
inductive Difficulty
  | EASY
  | MEDIUM
  | HARD
deriving DecidableEq, Repr

/-- `enum Grade` of `src/types.ts`. -/
inductive Grade
  | SIX
  | SEVEN
  | EIGHT
  | NINE
deriving DecidableEq, Repr

/-- `enum QuestionType` of `src/types.ts`. -/
inductive QuestionType
  | MULTIPLE_CHOICE
  | TRUE_FALSE
deriving DecidableEq, Repr

/-- `interface Question` of `src/types.ts`.  Optional fields are
`Option`; `correctAnswerIndex` is an `Int` (a JavaScript number that the
generator is asked to keep in `[0,3]`, but nothing in the scoring code
enforces that). -/
structure Question where
  id : String
  type : QuestionType
  questionText : String
  options : Option (List String) := none
  correctAnswerIndex : Option Int := none
  propositions : Option (List String) := none
  correctAnswersTF : Option (List Bool) := none
  explanation : String
deriving DecidableEq, Repr

/-- `interface QuizConfig` of `src/types.ts`; `questionType` is
`QuestionType | MIXED`, with `none` standing for `'MIXED'`. -/
structure QuizConfig where
  grade : Grade
  topic : String
  difficulty : Difficulty
  questionCount : Nat
  questionType : Option QuestionType := none
deriving DecidableEq, Repr

/-- `type UserAnswer = number | boolean[] | null`, extended with the
`undefined` read from a missing array slot; the `null` arm of the union
is never produced by any code path, so `undef` is exactly `undefined`.
A true/false array cell is `Option Bool` (`none` = `undefined`). -/
inductive UserAnswer
  | num (n : Int)
  | tf (cells : List (Option Bool))
  | undef
deriving DecidableEq, Repr

/-- `submissionReason?: 'normal' | 'cheat'`. -/
inductive SubmissionReason
  | normal
  | cheat
deriving DecidableEq, Repr

/-- `interface QuizState` of `src/types.ts` (timestamps omitted, see the
file header).  `score : Option ℚ` with `none` for `NaN`. -/
structure QuizState where
  questions : List Question
  userAnswers : List UserAnswer
  currentQuestionIndex : Nat
  isComplete : Bool
  score : Option ℚ
  warnings : Nat
  submissionReason : SubmissionReason
deriving DecidableEq, Repr

/-- The `view` state of the `App` component:
`'setup' | 'loading' | 'quiz' | 'summary'`. -/
inductive View
  | setup
  | loading
  | quiz
  | summary
deriving DecidableEq, Repr

/-- The mutable state of the `App` component that the transition logic
reads or writes: the current `view`, the `config`, and the `quizState`. -/
structure AppState where
  view : View
  config : QuizConfig
  quizState : QuizState
deriving DecidableEq, Repr

/-! ## Scoring engine (`finishQuiz`, lines 167–202) -/

/-- JavaScript `ans === q.correctAnswerIndex` where `ans : UserAnswer`
and the right-hand side is a number or `undefined`: two numbers compare
by value, an array compares by reference (never equal to a number or
`undefined`), and `undefined === undefined` yields `true` (reachable
only when `correctAnswerIndex` is missing and the slot is read out of
bounds). -/
def mcEq : UserAnswer → Option Int → Bool
  | .num n, some k => n == k
  | .undef, none => true
  | _, _ => false

/-- The loop body `userTF.forEach((val, i) => { if (val === correctTF[i])
correctProps++ })`: counts positions of `userTF` whose cell is strictly
equal to the key cell, where reading `correctTF` out of bounds yields
`undefined` (= `none`), and `undefined === undefined` holds. -/
def countMatches : List (Option Bool) → List Bool → Nat
  | [], _ => 0
  | v :: vs, [] => (if v == (none : Option Bool) then 1 else 0) + countMatches vs []
  | v :: vs, c :: cs => (if v == some c then 1 else 0) + countMatches vs cs

/-- Points contributed by one question in the `prev.questions.forEach`
loop of `finishQuiz`: 1 for a strictly-equal multiple-choice answer,
`correctProps * 0.25` for a true/false question (with
`correctTF = q.correctAnswersTF || []` and an `Array.isArray` guard on
the stored answer). -/
def questionPoints (q : Question) (ans : UserAnswer) : ℚ :=
  match q.type with
  | .MULTIPLE_CHOICE => if mcEq ans q.correctAnswerIndex then 1 else 0
  | .TRUE_FALSE =>
      let correctTF := q.correctAnswersTF.getD []
      (match ans with
       | .tf userTF => (countMatches userTF correctTF : ℚ)
       | _ => 0) * (1 / 4)

/-- The accumulation of `totalPoints` over `prev.questions.forEach`:
`prev.userAnswers[idx]` reads `undefined` past the end of the answers
list. -/
def totalPoints : List Question → List UserAnswer → ℚ
  | [], _ => 0
  | q :: qs, [] => questionPoints q .undef + totalPoints qs []
  | q :: qs, _a :: as => questionPoints q _a + totalPoints qs as

/-- `parseFloat(x.toFixed(2))`: rounding to two decimal places,
idealised over `ℚ`. -/
def round2 (x : ℚ) : ℚ := (round (x * 100) : ℤ) / 100

/-- The score computed by `finishQuiz`:
`(totalPoints / maxPossiblePoints) * 10` followed by
`parseFloat(.toFixed(2))`.  With zero questions `totalPoints` is `0` and
`maxPossiblePoints` is `0`, and JavaScript `0/0` is `NaN`, which
`toFixed`/`parseFloat` propagate — modelled by `none`. -/
def finishScore (questions : List Question) (answers : List UserAnswer) :
    Option ℚ :=
  if questions.length = 0 then none
  else some (round2 (totalPoints questions answers / questions.length * 10))

/-! ## State transitions -/

/-- `finishQuiz(reason)` (lines 167–202): freezes the quiz state with the
computed score and the given reason and switches the view to the
summary. -/
def finishQuiz (reason : SubmissionReason) (s : AppState) : AppState :=
  { s with
    view := .summary
    quizState :=
      { s.quizState with
        isComplete := true
        score := finishScore s.quizState.questions s.quizState.userAnswers
        submissionReason := reason } }

/-- `handleMCSelect(optionIndex)` (lines 132–139): ignored when complete,
otherwise stores the option index at the current question position.  In
every reachable state `currentQuestionIndex < userAnswers.length`, so
the JavaScript assignment is the in-bounds update modelled by
`List.set`. -/
def handleMCSelect (optionIndex : Int) (s : QuizState) : QuizState :=
  if s.isComplete then s
  else
    { s with
      userAnswers :=
        s.userAnswers.set s.currentQuestionIndex (.num optionIndex) }

/-- `handleTFSelect(propIndex, value)` (lines 141–151): ignored when
complete; otherwise reads the current slot (`as boolean[] ||
[undefined, undefined, undefined, undefined]` — the default is taken
when the slot is `undefined`/`null`; a truthy non-array slot cannot
occur at a true/false question in a reachable state), overwrites cell
`propIndex` (always in `[0,3]`, one per rendered proposition row) and
stores the copy back. -/
def handleTFSelect (propIndex : Nat) (value : Bool) (s : QuizState) :
    QuizState :=
  if s.isComplete then s
  else
    let currentAns : List (Option Bool) :=
      match s.userAnswers.getD s.currentQuestionIndex .undef with
      | .tf l => l
      | _ => [none, none, none, none]
    let updatedTF := currentAns.set propIndex (some value)
    { s with
      userAnswers :=
        s.userAnswers.set s.currentQuestionIndex (.tf updatedTF) }

/-- `handleNextQuestion` (lines 153–159).  The JavaScript guard
`currentQuestionIndex < questions.length - 1` is integer arithmetic
(`0 < -1` is false for the empty list), i.e. exactly
`currentQuestionIndex + 1 < questions.length`. -/
def handleNextQuestion (s : AppState) : AppState :=
  if s.quizState.currentQuestionIndex + 1 < s.quizState.questions.length then
    { s with
      quizState :=
        { s.quizState with
          currentQuestionIndex := s.quizState.currentQuestionIndex + 1 } }
  else finishQuiz .normal s

/-- `handlePrevQuestion` (lines 161–165). -/
def handlePrevQuestion (s : AppState) : AppState :=
  if 0 < s.quizState.currentQuestionIndex then
    { s with
      quizState :=
        { s.quizState with
          currentQuestionIndex := s.quizState.currentQuestionIndex - 1 } }
  else s

/-- `resetApp` (lines 204–206): `setView('setup')` and nothing else. -/
def resetApp (s : AppState) : AppState := { s with view := .setup }

/-- The `visibilitychange` handler (lines 208–218):
`if (document.hidden && view === 'quiz') finishQuiz('cheat')`. -/
def handleVisibilityChange (hidden : Bool) (s : AppState) : AppState :=
  if hidden && s.view == .quiz then finishQuiz .cheat s else s

/-- The `initialAnswers` built in `handleStartQuiz` (lines 107–112):
four `undefined` cells for a true/false question, `-1` otherwise. -/
def initialAnswers (questions : List Question) : List UserAnswer :=
  questions.map fun q =>
    if q.type = .TRUE_FALSE then .tf [none, none, none, none] else .num (-1)

/-- The state update of `handleStartQuiz` on generator success (lines
114–125), parameterised by the generated questions. -/
def startQuiz (generated : List Question) (s : AppState) : AppState :=
  { s with
    view := .quiz
    quizState :=
      { questions := generated
        userAnswers := initialAnswers generated
        currentQuestionIndex := 0
        isComplete := false
        score := some 0
        warnings := 0
        submissionReason := .normal } }

/-! ## Shape invariant and concrete fixtures -/

/-- The shape invariant the app maintains on a stored answer: a
true/false answer array has at most 4 cells (the app always stores
exactly 4: `initialAnswers` builds them and `handleTFSelect` only
overwrites a cell of an existing array). -/
def tfShapeOk : UserAnswer → Bool
  | .tf l => decide (l.length ≤ 4)
  | _ => true

/-- A multiple-choice fixture with key `2`. -/
def demoMCQ1 : Question :=
  { id := "q1", type := .MULTIPLE_CHOICE, questionText := "1 + 1 = ?"
    options := some ["0", "1", "2", "3"], correctAnswerIndex := some 2
    explanation := "arithmetic" }

/-- A multiple-choice fixture with key `1`. -/
def demoMCQ2 : Question :=
  { id := "q2", type := .MULTIPLE_CHOICE, questionText := "2 * 3 = ?"
    options := some ["5", "6", "7", "8"], correctAnswerIndex := some 1
    explanation := "arithmetic" }

/-- A true/false fixture with key `[true, false, true, false]`. -/
def demoTFQ1 : Question :=
  { id := "q3", type := .TRUE_FALSE, questionText := "judge each"
    propositions := some ["a", "b", "c", "d"]
    correctAnswersTF := some [true, false, true, false]
    explanation := "logic" }

/-- A true/false fixture with key `[true, true, false, false]`. -/
def demoTFQ2 : Question :=
  { id := "q4", type := .TRUE_FALSE, questionText := "judge each"
    propositions := some ["a", "b", "c", "d"]
    correctAnswersTF := some [true, true, false, false]
    explanation := "logic" }

/-- A true/false fixture whose `correctAnswersTF` key is missing. -/
def demoTFQnoKey : Question :=
  { id := "q5", type := .TRUE_FALSE, questionText := "judge each"
    propositions := some ["a", "b", "c", "d"]
    explanation := "logic" }

/-- The end-to-end fixture of the spec: MC right, MC wrong, TF 4-of-4,
TF 2-of-4. -/
def demoQuestions : List Question := [demoMCQ1, demoMCQ2, demoTFQ1, demoTFQ2]

/-- Answers for `demoQuestions`: correct, wrong, all four right, two of
four right. -/
def demoAnswers : List UserAnswer :=
  [.num 2, .num 0,
   .tf [some true, some false, some true, some false],
   .tf [some true, some false, some false, some true]]

/-- A config fixture. -/
def demoConfig : QuizConfig :=
  { grade := .NINE, topic := "Phuong trinh bac hai"
    difficulty := .MEDIUM, questionCount := 5, questionType := none }

/-- An `InProgress` session over the four fixture questions. -/
def demoInProgress : AppState :=
  { view := .quiz
    config := demoConfig
    quizState :=
      { questions := demoQuestions
        userAnswers := demoAnswers
        currentQuestionIndex := 2
        isComplete := false
        score := some 0
        warnings := 0
        submissionReason := .normal } }

/-- An `InProgress` session holding a single question, at index `0`. -/
def demoSingleQuestion : AppState :=
  { view := .quiz
    config := demoConfig
    quizState :=
      { questions := [demoMCQ1]
        userAnswers := [.num (-1)]
        currentQuestionIndex := 0
        isComplete := false
        score := some 0
        warnings := 0
        submissionReason := .normal } }

/-- A completed session (as produced by `finishQuiz` on
`demoSingleQuestion` after a correct answer). -/
def demoCompleted : AppState :=
  { view := .summary
    config := demoConfig
    quizState :=
      { questions := [demoMCQ1]
        userAnswers := [.num 2]
        currentQuestionIndex := 0
        isComplete := true
        score := some 10
        warnings := 0
        submissionReason := .normal } }

/-! ## Helper lemmas -/

theorem countMatches_le (l : List (Option Bool)) :
    ∀ ct : List Bool, countMatches l ct ≤ l.length := by
  induction l with
  | nil => intro ct; simp [countMatches]
  | cons v vs ih =>
    intro ct
    cases ct with
    | nil =>
      have := ih []
      simp only [countMatches, List.length_cons]
      split <;> omega
    | cons c cs =>
      have := ih cs
      simp only [countMatches, List.length_cons]
      split <;> omega

theorem countMatches_zip (l : List (Option Bool)) (ct : List Bool)
    (h : l.length = ct.length) :
    countMatches l ct = ((l.zip ct).filter fun p => p.1 = some p.2).length := by
  induction l generalizing ct with
  | nil => simp [countMatches]
  | cons v vs ih =>
    cases ct with
    | nil => simp at h
    | cons c cs =>
      simp only [List.length_cons, Nat.add_right_cancel_iff] at h
      simp only [countMatches, List.zip_cons_cons, List.filter_cons, ih cs h]
      by_cases hv : v = some c
      · simp [hv]; omega
      · simp [hv]

theorem countMatches_replicate_none :
    ∀ (n : Nat) (ct : List Bool), n ≤ ct.length →
      countMatches (List.replicate n none) ct = 0 := by
  intro n
  induction n with
  | zero => intro ct _; simp [countMatches]
  | succ m ih =>
    intro ct h
    cases ct with
    | nil => simp at h
    | cons c cs =>
      simp only [List.replicate, countMatches]
      have := ih cs (by simpa using h)
      simp [this]

theorem countMatches_nil_key (l : List (Option Bool)) :
    countMatches l [] = (l.filter fun v => v = none).length := by
  induction l with
  | nil => simp [countMatches]
  | cons v vs ih =>
    simp only [countMatches, List.filter_cons, ih]
    by_cases hv : v = none
    · simp [hv]; omega
    · simp [hv]

theorem questionPoints_nonneg (q : Question) (a : UserAnswer) :
    0 ≤ questionPoints q a := by
  cases hq : q.type with
  | MULTIPLE_CHOICE =>
    simp only [questionPoints, hq]
    split <;> norm_num
  | TRUE_FALSE =>
    simp only [questionPoints, hq]
    cases a <;> simp

theorem questionPoints_le_one (q : Question) (a : UserAnswer)
    (h : tfShapeOk a = true) : questionPoints q a ≤ 1 := by
  cases hq : q.type with
  | MULTIPLE_CHOICE =>
    simp only [questionPoints, hq]
    split <;> norm_num
  | TRUE_FALSE =>
    simp only [questionPoints, hq]
    cases a with
    | num n => norm_num
    | undef => norm_num
    | tf cells =>
      simp only [tfShapeOk, decide_eq_true_eq] at h
      have hle : countMatches cells (q.correctAnswersTF.getD []) ≤ 4 :=
        le_trans (countMatches_le cells _) h
      have hc4 : (countMatches cells (q.correctAnswersTF.getD []) : ℚ) ≤ 4 := by
        exact_mod_cast hle
      simp only []
      linarith

theorem totalPoints_nonneg :
    ∀ (qs : List Question) (as : List UserAnswer), 0 ≤ totalPoints qs as := by
  intro qs
  induction qs with
  | nil => intro as; simp [totalPoints]
  | cons q qs ih =>
    intro as
    cases as with
    | nil =>
      have h1 := questionPoints_nonneg q .undef
      have h2 := ih []
      simp only [totalPoints]; linarith
    | cons a as =>
      have h1 := questionPoints_nonneg q a
      have h2 := ih as
      simp only [totalPoints]; linarith

theorem totalPoints_le_length :
    ∀ (qs : List Question) (as : List UserAnswer),
      (∀ a ∈ as, tfShapeOk a = true) →
      totalPoints qs as ≤ qs.length := by
  intro qs
  induction qs with
  | nil => intro as _; simp [totalPoints]
  | cons q qs ih =>
    intro as h
    cases as with
    | nil =>
      have h1 := questionPoints_le_one q .undef rfl
      have h2 := ih [] (by intro a ha; simp at ha)
      simp only [totalPoints, List.length_cons]
      push_cast
      linarith
    | cons a as =>
      have h1 := questionPoints_le_one q a (h a (by simp))
      have h2 := ih as (by intro b hb; exact h b (by simp [hb]))
      simp only [totalPoints, List.length_cons]
      push_cast
      linarith

theorem round2_mono {x y : ℚ} (h : x ≤ y) : round2 x ≤ round2 y := by
  unfold round2
  have : round (x * 100) ≤ round (y * 100) := by
    rw [round_eq, round_eq]
    exact Int.floor_mono (by linarith)
  have hq : ((round (x * 100) : ℤ) : ℚ) ≤ ((round (y * 100) : ℤ) : ℚ) := by
    exact_mod_cast this
  linarith

theorem round2_zero : round2 0 = 0 := by
  unfold round2; norm_num

theorem round2_ten : round2 10 = 10 := by
  unfold round2
  have : ((10 : ℚ) * 100) = ((1000 : ℤ) : ℚ) := by norm_num
  rw [this, round_intCast]
  norm_num

/-- Sanity check of the embedding on the end-to-end fixture: points
`1 + 0 + 1 + 0.5 = 2.5` over `4` questions give a final score of
`6.25`. -/
theorem finishScore_demo : finishScore demoQuestions demoAnswers = some (25 / 4) := by
  have h1 : totalPoints demoQuestions demoAnswers = 5 / 2 := by
    norm_num [totalPoints, demoQuestions, demoAnswers, questionPoints,
      demoMCQ1, demoMCQ2, demoTFQ1, demoTFQ2, mcEq, countMatches]
  have hlen : demoQuestions.length = 4 := by norm_num [demoQuestions]
  unfold finishScore
  rw [hlen, h1]
  norm_num [round2]

/-! ## Claims -/

/-- C1: for a `TrueFalseSet` question at position `i`, the scoring
engine contributes exactly `0.25` times the number of the 4 sub-slots
`k` where `answers[i][k]` strictly equals `correctTruths[k]`; an
unanswered (`undefined`) sub-slot equals neither `true` nor `false`, so
a fully unanswered array contributes `0`. -/
theorem C1_tf_partial_credit (q : Question) (ct : List Bool)
    (l : List (Option Bool)) (hq : q.type = .TRUE_FALSE)
    (hct : q.correctAnswersTF = some ct) (hctlen : ct.length = 4)
    (hlen : l.length = 4) :
    questionPoints q (.tf l) =
      (((l.zip ct).filter fun p => p.1 = some p.2).length : ℚ) * (1 / 4) ∧
    questionPoints q (.tf (List.replicate 4 none)) = 0 := by
  constructor
  · simp only [questionPoints, hq, hct, Option.getD_some]
    rw [countMatches_zip l ct (by rw [hlen, hctlen])]
  · simp only [questionPoints, hq, hct, Option.getD_some]
    rw [countMatches_replicate_none 4 ct (by rw [hctlen])]
    norm_num

/-- Witness for `C1_tf_partial_credit`: key `[true, false, true, false]`,
answer `[true, true, true, true]` (2 of 4 match, so 0.5 points). -/
theorem C1_tf_partial_credit_witness :
    questionPoints demoTFQ1 (.tf [some true, some true, some true, some true]) =
      ((([some true, some true, some true, some true].zip
          [true, false, true, false]).filter fun p => p.1 = some p.2).length : ℚ) *
        (1 / 4) ∧
    questionPoints demoTFQ1 (.tf (List.replicate 4 none)) = 0 :=
  C1_tf_partial_credit demoTFQ1 [true, false, true, false]
    [some true, some true, some true, some true] rfl rfl rfl rfl

/-- C2: a multiple-choice question contributes exactly 1 point when the
stored answer is the number `correctAnswerIndex` and 0 for every other
stored value; the unanswered sentinel `-1` never equals a valid option
index in `[0,3]`, so it contributes 0. -/
theorem C2_mc_exact_point (q : Question) (k : Int) (a : UserAnswer)
    (hq : q.type = .MULTIPLE_CHOICE) (hk : q.correctAnswerIndex = some k)
    (hk0 : 0 ≤ k) (hk3 : k ≤ 3) :
    questionPoints q a = (if a = .num k then 1 else 0) ∧
    questionPoints q (.num (-1)) = 0 := by
  constructor
  · simp only [questionPoints, hq, hk]
    cases a with
    | num n =>
      by_cases hn : n = k
      · simp [mcEq, hn]
      · simp [mcEq, hn]
    | tf cells => simp [mcEq]
    | undef => simp [mcEq]
  · simp only [questionPoints, hq, hk]
    have hne : ¬((-1 : Int) = k) := by omega
    simp [mcEq, hne]

/-- Witness for `C2_mc_exact_point` at `demoMCQ1` (key 2), stored
answer 2. -/
theorem C2_mc_exact_point_witness :
    (questionPoints demoMCQ1 (.num 2) =
      (if (UserAnswer.num 2) = .num 2 then 1 else 0)) ∧
    questionPoints demoMCQ1 (.num (-1)) = 0 :=
  C2_mc_exact_point demoMCQ1 2 (.num 2) rfl rfl (by norm_num) (by norm_num)

/-- C3: for a completed session with at least one question and answers
satisfying the app's shape invariant, the final score is exactly
`(sum of points / number of questions) * 10` rounded to two decimal
places, and lies in `[0, 10]`. -/
theorem C3_final_score_formula_and_bounds (questions : List Question)
    (answers : List UserAnswer) (hne : questions ≠ [])
    (hshape : ∀ a ∈ answers, tfShapeOk a = true) :
    ∃ x, finishScore questions answers = some x ∧
      x = round2 (totalPoints questions answers / questions.length * 10) ∧
      0 ≤ x ∧ x ≤ 10 := by
  have hlen : questions.length ≠ 0 := by
    simpa using hne
  refine ⟨round2 (totalPoints questions answers / questions.length * 10),
    ?_, rfl, ?_, ?_⟩
  · simp [finishScore, hlen]
  · have htp := totalPoints_nonneg questions answers
    have hden : (0 : ℚ) ≤ (questions.length : ℚ) := by positivity
    have h0 : 0 ≤ totalPoints questions answers / questions.length * 10 :=
      mul_nonneg (div_nonneg htp hden) (by norm_num)
    calc (0 : ℚ) = round2 0 := round2_zero.symm
      _ ≤ _ := round2_mono h0
  · have hlt : (0 : ℚ) < (questions.length : ℚ) := by
      exact_mod_cast Nat.pos_of_ne_zero hlen
    have hle := totalPoints_le_length questions answers hshape
    have hdiv : totalPoints questions answers / questions.length ≤ 1 :=
      (div_le_one hlt).mpr hle
    have hub : totalPoints questions answers / questions.length * 10 ≤ 10 := by
      linarith
    calc round2 (totalPoints questions answers / questions.length * 10)
        ≤ round2 10 := round2_mono hub
      _ = 10 := round2_ten

/-- Witness for `C3_final_score_formula_and_bounds` on the end-to-end
fixture (score 6.25). -/
theorem C3_final_score_formula_and_bounds_witness :
    ∃ x, finishScore demoQuestions demoAnswers = some x ∧
      x = round2 (totalPoints demoQuestions demoAnswers /
        demoQuestions.length * 10) ∧
      0 ≤ x ∧ x ≤ 10 :=
  C3_final_score_formula_and_bounds demoQuestions demoAnswers
    (by decide) (by decide)

/-- C4 (code bug): scoring a session with zero questions evaluates
`(0 / 0) * 10`, which is `NaN` in JavaScript (`none` in this model) —
not the defined numeric fallback the spec requires. -/
theorem C4_zero_questions_score_is_nan (answers : List UserAnswer) :
    finishScore [] answers = none := rfl

/-- C10 counterexample: for a `TrueFalseSet` question whose
`correctAnswersTF` key is missing, a fully unanswered answer array
scores one full point — each `undefined` cell strictly equals the
`undefined` read from the empty key (`undefined === undefined`) —
contradicting the claim that every sub-slot comparison fails and
contributes 0. -/
theorem C10_missing_key_counterexample :
    questionPoints demoTFQnoKey (.tf [none, none, none, none]) = 1 := by
  norm_num [questionPoints, demoTFQnoKey, countMatches]

/-- C10 amended: the scoring engine is total against shape-mismatched or
missing data — for *every* true/false question, a non-array stored
answer (a number or `undefined`) contributes 0, guarded by
`Array.isArray`; and when the `correctAnswersTF` key is missing, an
*answered* (boolean) cell contributes 0 but every *unanswered*
(`undefined`) cell strictly equals the `undefined` read from the empty
key and contributes 0.25.  No fault occurs in either case (the engine
is a total function). -/
theorem C10_tf_defensive_amended (q : Question) (n : Int)
    (l : List (Option Bool)) (hq : q.type = .TRUE_FALSE) :
    questionPoints q (.num n) = 0 ∧
    questionPoints q .undef = 0 ∧
    (q.correctAnswersTF = none →
      questionPoints q (.tf l) =
        ((l.filter fun v => v = none).length : ℚ) * (1 / 4)) := by
  refine ⟨?_, ?_, ?_⟩
  · simp [questionPoints, hq]
  · simp [questionPoints, hq]
  · intro hkey
    simp only [questionPoints, hq, hkey, Option.getD_none]
    rw [countMatches_nil_key]

/-- Witness for `C10_tf_defensive_amended` at the keyless fixture with
two answered and two unanswered cells. -/
theorem C10_tf_defensive_amended_witness :
    questionPoints demoTFQnoKey (.num 0) = 0 ∧
    questionPoints demoTFQnoKey .undef = 0 ∧
    (demoTFQnoKey.correctAnswersTF = none →
      questionPoints demoTFQnoKey (.tf [some true, none, some false, none]) =
        ((([some true, none, some false, none].filter
          fun v => v = none)).length : ℚ) * (1 / 4)) :=
  C10_tf_defensive_amended demoTFQnoKey 0
    [some true, none, some false, none] rfl

/-- C5: firing the integrity signal (`document.hidden` true) while the
phase is `InProgress` (view `quiz`, not complete) immediately completes
the session with `submissionReason = cheat` and a score computed from
exactly the questions and answers stored at that instant; any further
firing of the signal on the completed state, with either value of the
hidden flag, leaves the state unchanged. -/
theorem C5_integrity_violation (s : AppState) (hv : s.view = .quiz)
    (_hc : s.quizState.isComplete = false) :
    (handleVisibilityChange true s).view = .summary ∧
    (handleVisibilityChange true s).quizState.isComplete = true ∧
    (handleVisibilityChange true s).quizState.submissionReason = .cheat ∧
    (handleVisibilityChange true s).quizState.score =
      finishScore s.quizState.questions s.quizState.userAnswers ∧
    (handleVisibilityChange true s).quizState.userAnswers =
      s.quizState.userAnswers ∧
    (handleVisibilityChange true s).quizState.questions =
      s.quizState.questions ∧
    (∀ b, handleVisibilityChange b (handleVisibilityChange true s) =
      handleVisibilityChange true s) := by
  have h1 : handleVisibilityChange true s = finishQuiz .cheat s := by
    simp [handleVisibilityChange, hv]
  rw [h1]
  refine ⟨rfl, rfl, rfl, rfl, rfl, rfl, ?_⟩
  intro b
  simp [handleVisibilityChange, finishQuiz]

/-- Witness for `C5_integrity_violation` at the in-progress fixture. -/
theorem C5_integrity_violation_witness :
    (handleVisibilityChange true demoInProgress).view = .summary ∧
    (handleVisibilityChange true demoInProgress).quizState.isComplete = true ∧
    (handleVisibilityChange true demoInProgress).quizState.submissionReason =
      .cheat ∧
    (handleVisibilityChange true demoInProgress).quizState.score =
      finishScore demoInProgress.quizState.questions
        demoInProgress.quizState.userAnswers ∧
    (handleVisibilityChange true demoInProgress).quizState.userAnswers =
      demoInProgress.quizState.userAnswers ∧
    (handleVisibilityChange true demoInProgress).quizState.questions =
      demoInProgress.quizState.questions ∧
    (∀ b, handleVisibilityChange b (handleVisibilityChange true demoInProgress) =
      handleVisibilityChange true demoInProgress) :=
  C5_integrity_violation demoInProgress rfl rfl

/-- C6 counterexample: resetting the completed fixture switches the view
back to `setup` but does not produce a session with zero questions — the
prior session's questions and answers are still stored. -/
theorem C6_reset_counterexample :
    (resetApp demoCompleted).view = .setup ∧
    (resetApp demoCompleted).quizState.questions ≠ [] ∧
    (resetApp demoCompleted).quizState.userAnswers ≠ [] := by
  refine ⟨rfl, ?_, ?_⟩ <;> simp [resetApp, demoCompleted]

/-- C6 amended: `resetApp` only switches the view back to `Setup` and
retains the `QuizConfig`; the prior session's questions and answers are
*not* cleared at reset — they stay in place, unread in `Setup` — and
the next `startQuiz` replaces the session wholesale, so no prior
questions or answers leak into a new session. -/
theorem C6_reset_amended (s : AppState) (generated : List Question) :
    (resetApp s).view = .setup ∧
    (resetApp s).config = s.config ∧
    (resetApp s).quizState = s.quizState ∧
    (startQuiz generated (resetApp s)).quizState.questions = generated ∧
    (startQuiz generated (resetApp s)).quizState.userAnswers =
      initialAnswers generated ∧
    (startQuiz generated (resetApp s)).quizState.currentQuestionIndex = 0 ∧
    (startQuiz generated (resetApp s)).quizState.isComplete = false :=
  ⟨rfl, rfl, rfl, rfl, rfl, rfl, rfl⟩

/-- C7: once the session is complete, both answer-recording handlers
return the state unchanged — every stored answer, the
`currentQuestionIndex` and the phase are untouched — and, being total
functions, they never raise an error. -/
theorem C7_complete_answer_noop (s : QuizState) (optionIndex : Int)
    (propIndex : Nat) (value : Bool) (hc : s.isComplete = true) :
    handleMCSelect optionIndex s = s ∧
    handleTFSelect propIndex value s = s := by
  constructor <;> simp [handleMCSelect, handleTFSelect, hc]

/-- Witness for `C7_complete_answer_noop` at the completed fixture. -/
theorem C7_complete_answer_noop_witness :
    handleMCSelect 3 demoCompleted.quizState = demoCompleted.quizState ∧
    handleTFSelect 1 false demoCompleted.quizState =
      demoCompleted.quizState :=
  C7_complete_answer_noop demoCompleted.quizState 3 1 false rfl

/-- C8: while in progress, `handleTFSelect` overwrites exactly the one
addressed sub-slot of the current question's 4-cell answer array: the
stored array becomes `l.set propIndex (some value)`, whose cell at
`propIndex` is the new value and whose other three cells are unchanged;
every other question's answer, the `currentQuestionIndex`, the
completion flag and the question list are unchanged. -/
theorem C8_tf_select_frame (s : QuizState) (propIndex : Nat) (value : Bool)
    (l : List (Option Bool)) (hc : s.isComplete = false)
    (hslot : s.userAnswers[s.currentQuestionIndex]? = some (.tf l))
    (hlen : l.length = 4) (hp : propIndex < 4) :
    (handleTFSelect propIndex value s).userAnswers[s.currentQuestionIndex]? =
      some (.tf (l.set propIndex (some value))) ∧
    (∀ j, j ≠ s.currentQuestionIndex →
      (handleTFSelect propIndex value s).userAnswers[j]? =
        s.userAnswers[j]?) ∧
    (l.set propIndex (some value))[propIndex]? = some (some value) ∧
    (∀ k, k ≠ propIndex →
      (l.set propIndex (some value))[k]? = l[k]?) ∧
    (handleTFSelect propIndex value s).currentQuestionIndex =
      s.currentQuestionIndex ∧
    (handleTFSelect propIndex value s).isComplete = s.isComplete ∧
    (handleTFSelect propIndex value s).questions = s.questions := by
  have hin : s.currentQuestionIndex < s.userAnswers.length :=
    (List.getElem?_eq_some.mp hslot).1
  have hgd : s.userAnswers[s.currentQuestionIndex]?.getD UserAnswer.undef =
      .tf l := by
    rw [hslot]
    rfl
  have hd : handleTFSelect propIndex value s =
      { s with
        userAnswers := s.userAnswers.set s.currentQuestionIndex
          (.tf (l.set propIndex (some value))) } := by
    simp [handleTFSelect, hc, hgd]
  rw [hd]
  refine ⟨?_, ?_, ?_, ?_, rfl, rfl, rfl⟩
  · exact List.getElem?_set_eq_of_lt _ hin
  · intro j hj
    exact List.getElem?_set_ne (fun h => hj h.symm)
  · exact List.getElem?_set_eq_of_lt _ (by omega)
  · intro k hk
    exact List.getElem?_set_ne (fun h => hk h.symm)

/-- Witness for `C8_tf_select_frame` at the in-progress fixture (current
question 2 holds a 4-cell array); sub-slot 1 is set to `true`. -/
theorem C8_tf_select_frame_witness :
    (handleTFSelect 1 true
        demoInProgress.quizState).userAnswers[demoInProgress.quizState.currentQuestionIndex]? =
      some (.tf ([some true, some false, some true,
        some false].set 1 (some true))) ∧
    (∀ j, j ≠ demoInProgress.quizState.currentQuestionIndex →
      (handleTFSelect 1 true demoInProgress.quizState).userAnswers[j]? =
        demoInProgress.quizState.userAnswers[j]?) ∧
    ([some true, some false, some true, some false].set 1
      (some true))[1]? = some (some true) ∧
    (∀ k, k ≠ 1 →
      ([some true, some false, some true, some false].set 1
        (some true))[k]? =
        [some true, some false, some true, some false][k]?) ∧
    (handleTFSelect 1 true demoInProgress.quizState).currentQuestionIndex =
      demoInProgress.quizState.currentQuestionIndex ∧
    (handleTFSelect 1 true demoInProgress.quizState).isComplete =
      demoInProgress.quizState.isComplete ∧
    (handleTFSelect 1 true demoInProgress.quizState).questions =
      demoInProgress.quizState.questions :=
  C8_tf_select_frame demoInProgress.quizState 1 true
    [some true, some false, some true, some false] rfl rfl rfl
    (by norm_num)

/-- C9 counterexample: in a single-question `InProgress` session at
index 0, `prev` is a no-op and the following `next` submits the quiz:
the phase changes to `Complete` (summary view), refuting the claim that
`prev` followed by `next` never alters the phase. -/
theorem C9_prev_next_counterexample :
    demoSingleQuestion.view = .quiz ∧
    demoSingleQuestion.quizState.isComplete = false ∧
    (handleNextQuestion (handlePrevQuestion demoSingleQuestion)).view =
      .summary ∧
    (handleNextQuestion
      (handlePrevQuestion demoSingleQuestion)).quizState.isComplete =
      true := by
  refine ⟨rfl, rfl, ?_, ?_⟩ <;>
    simp [handleNextQuestion, handlePrevQuestion, demoSingleQuestion,
      finishQuiz]

/-- C9 amended: while `InProgress` (with the index invariant
`currentQuestionIndex < questions.length`), `prev` never triggers
scoring, leaves every answer, the phase and the score unchanged, and
decrements the index only when it is positive (no-op at 0); `prev`
followed by `next` always leaves every stored answer unchanged; and when
`currentQuestionIndex > 0` the pair restores the *entire* state — hence
is repeatable any number of times and never submits.  When the index is
0, `prev` is the identity, so the following `next` acts from the
original state (submitting only when the session is on its last
question). -/
theorem C9_prev_next_amended (s : AppState) (hv : s.view = .quiz)
    (hc : s.quizState.isComplete = false)
    (hidx : s.quizState.currentQuestionIndex <
      s.quizState.questions.length) :
    (handleNextQuestion (handlePrevQuestion s)).quizState.userAnswers =
      s.quizState.userAnswers ∧
    (handlePrevQuestion s).view = .quiz ∧
    (handlePrevQuestion s).quizState.isComplete = false ∧
    (handlePrevQuestion s).quizState.score = s.quizState.score ∧
    (handlePrevQuestion s).quizState.userAnswers =
      s.quizState.userAnswers ∧
    (handlePrevQuestion s).quizState.currentQuestionIndex =
      (if 0 < s.quizState.currentQuestionIndex then
        s.quizState.currentQuestionIndex - 1
      else s.quizState.currentQuestionIndex) ∧
    (0 < s.quizState.currentQuestionIndex →
      handleNextQuestion (handlePrevQuestion s) = s) ∧
    (s.quizState.currentQuestionIndex = 0 → handlePrevQuestion s = s) := by
  have hna : ∀ t : AppState,
      (handleNextQuestion t).quizState.userAnswers =
        t.quizState.userAnswers := by
    intro t
    unfold handleNextQuestion
    split
    · rfl
    · simp [finishQuiz]
  have hpa : ∀ t : AppState,
      (handlePrevQuestion t).quizState.userAnswers =
        t.quizState.userAnswers := by
    intro t
    unfold handlePrevQuestion
    split <;> rfl
  refine ⟨(hna _).trans (hpa s), ?_, ?_, ?_, hpa s, ?_, ?_, ?_⟩
  · unfold handlePrevQuestion
    split <;> simp [hv]
  · unfold handlePrevQuestion
    split <;> simp [hc]
  · unfold handlePrevQuestion
    split <;> rfl
  · unfold handlePrevQuestion
    by_cases h0 : 0 < s.quizState.currentQuestionIndex <;> simp [h0]
  · intro h0
    have hprev : handlePrevQuestion s =
        { s with
          quizState :=
            { s.quizState with
              currentQuestionIndex :=
                s.quizState.currentQuestionIndex - 1 } } := by
      simp [handlePrevQuestion, h0]
    rw [hprev]
    simp [handleNextQuestion, Nat.sub_add_cancel h0, hidx]
  · intro h0
    simp [handlePrevQuestion, h0]

/-- Witness for `C9_prev_next_amended` at the in-progress fixture
(index 2 of 4 questions). -/
theorem C9_prev_next_amended_witness :
    (handleNextQuestion
        (handlePrevQuestion demoInProgress)).quizState.userAnswers =
      demoInProgress.quizState.userAnswers ∧
    (handlePrevQuestion demoInProgress).view = .quiz ∧
    (handlePrevQuestion demoInProgress).quizState.isComplete = false ∧
    (handlePrevQuestion demoInProgress).quizState.score =
      demoInProgress.quizState.score ∧
    (handlePrevQuestion demoInProgress).quizState.userAnswers =
      demoInProgress.quizState.userAnswers ∧
    (handlePrevQuestion demoInProgress).quizState.currentQuestionIndex =
      (if 0 < demoInProgress.quizState.currentQuestionIndex then
        demoInProgress.quizState.currentQuestionIndex - 1
      else demoInProgress.quizState.currentQuestionIndex) ∧
    (0 < demoInProgress.quizState.currentQuestionIndex →
      handleNextQuestion (handlePrevQuestion demoInProgress) =
        demoInProgress) ∧
    (demoInProgress.quizState.currentQuestionIndex = 0 →
      handlePrevQuestion demoInProgress = demoInProgress) :=
  C9_prev_next_amended demoInProgress rfl rfl (by norm_num [demoInProgress,
    demoQuestions])

end HoctoanTHCS
